import Mathlib

/-!
Shallow embedding of the IVR weather-and-price voice service (`app.py`).

The embedding models the pure content of the handlers:

* string helpers mirroring the Python primitives the code relies on
  (`str.isdigit`, `int(...)` on digit strings, `str.lower`, substring test);
* `get_weather_for_place` over an explicit outcome of the HTTP call;
* `get_tomato_price_demo`, `build_message`, `map_pincode_to_city`;
* the session store (`sessions` dict) as a function `String → Option Session`,
  and the two stateful handlers `handle_language` and `collect_digit` as pure
  functions from store and request data to the new store plus the list of
  telephony directives appended to the response.

External effects (the HTTP weather call, the two synthesis backends, the clock
and the request host/scheme) are passed in as an explicit `ExtEnv` record holding
their outcomes, so the handlers stay pure functions of their inputs.
-/

/-- `s.isdigit()` of Python on ASCII input: nonempty and all characters
are decimal digits.  The guard `not pincode or not pincode.isdigit()` in
`map_pincode_to_city` is exactly `isDigitStr pincode = false`. -/
def isDigitStr (s : String) : Bool :=
  !s.data.isEmpty && s.data.all Char.isDigit

/-- `int(s)` of Python on a string of decimal digits. -/
def digitsToNat (s : String) : Nat :=
  s.data.foldl (fun n c => n * 10 + (c.toNat - 48)) 0

/-- `s.lower()` of Python on the ASCII strings this program handles. -/
def lowerStr (s : String) : String :=
  String.mk (s.data.map Char.toLower)

/-- Substring test on character lists: `subListAux pat hay = true` iff `pat`
occurs contiguously inside `hay` (Python `pat in hay`). -/
def subListAux (pat : List Char) : List Char → Bool
  | [] => pat.isEmpty
  | c :: cs => pat.isPrefixOf (c :: cs) || subListAux pat cs

/-- Python `pat in hay` on strings. -/
def strContains (hay pat : String) : Bool :=
  subListAux pat.data hay.data

/-- The weather reading dict returned by `get_weather_for_place`:
`{"desc": ..., "temp": ...}` (the temperature is kept in its rendered
form, `"unknown"` for the default reading). -/
structure Weather where
  desc : String
  temp : String
deriving Repr, DecidableEq

/-- Outcome of the HTTP call to OpenWeatherMap inside
`get_weather_for_place`: either the request (or the field accesses on its
JSON body) raised, or it produced a body with an optional `cod` field, a
`weather[0]["description"]` and a rendered `main["temp"]`. -/
inductive WeatherOutcome where
  | exn : WeatherOutcome
  | response (cod : Option Int) (desc : String) (temp : String) : WeatherOutcome
deriving Repr, DecidableEq

/-- The fixed default reading `{"desc": "clear sky", "temp": "unknown"}`. -/
def defaultWeather : Weather :=
  ⟨"clear sky", "unknown"⟩

/-- `get_weather_for_place` (app.py lines 31-48), over the configured
`OPENWEATHER_KEY` (`none` when unset; Python treats the empty string as
falsy too) and the outcome of the HTTP call. -/
def get_weather_for_place (key : Option String) (outcome : WeatherOutcome)
    (_city_or_district : String) : Weather :=
  if (key.getD "").isEmpty then defaultWeather
  else
    match outcome with
    | .exn => defaultWeather
    | .response cod desc temp =>
        if cod = some 200 then ⟨desc, temp⟩ else defaultWeather

/-- The per-city price table of `get_tomato_price_demo`, in the source's
insertion order (Python dicts iterate in insertion order). -/
def priceMapping : List (String × Nat) :=
  [("Ahmedabad", 28), ("Surat", 35), ("Mumbai", 45), ("Delhi", 30),
   ("Bengaluru", 40), ("Chennai", 38), ("Hyderabad", 34), ("Kolkata", 32)]

/-- `get_tomato_price_demo` (app.py lines 51-66): first table key whose
lowercasing occurs inside the lowercased city name wins; otherwise 32. -/
def get_tomato_price_demo (city : String) : Nat :=
  match priceMapping.find? (fun kv => strContains (lowerStr city) (lowerStr kv.1)) with
  | some kv => kv.2
  | none => 32

/-- `build_message` (app.py lines 97-109): one fixed template per language
plus a language-agnostic default template. -/
def build_message (lang : String) (city : String) (weather : Weather) (price : Nat) : String :=
  let desc := weather.desc
  let temp := weather.temp
  if lang = "en" then
    "Current weather in " ++ city ++ ": " ++ desc ++ ", temperature " ++ temp ++
      " degrees Celsius. Today\x27s tomato price is " ++ toString price ++
      " rupees per kilogram."
  else if lang = "hi" then
    city ++ " में मौजूदा मौसम " ++ desc ++ " है, तापमान " ++ temp ++
      " डिग्री सेल्सियस। आज टमाटर का भाव " ++ toString price ++ " रुपये प्रति किलो है।"
  else if lang = "gu" then
    city ++ " માં હાલનું હવામાન " ++ desc ++ " છે, તાપમાન " ++ temp ++
      " ડિગ્રિ સેલ્સિયસ. આજે ટામેટાની કિંમત " ++ toString price ++
      " રૂપિયા પ્રતિ કિલોગ્રામ છે."
  else
    "Current weather in " ++ city ++ ": " ++ desc ++ ", temperature " ++ temp ++
      " degrees Celsius. Tomato price: " ++ toString price ++ " rupees per kilogram."

/-- The direct city mapping of `map_pincode_to_city` (app.py lines 120-128):
pincode string, city, state. -/
def city_map : List (String × String × String) :=
  [("110001", "New Delhi", "Delhi"),
   ("400001", "Mumbai", "Maharashtra"),
   ("560001", "Bengaluru", "Karnataka"),
   ("600001", "Chennai", "Tamil Nadu"),
   ("700001", "Kolkata", "West Bengal"),
   ("500001", "Hyderabad", "Telangana"),
   ("380001", "Ahmedabad", "Gujarat")]

/-- The state range table of `map_pincode_to_city` (app.py lines 133-154),
in source order: inclusive lower bound, inclusive upper bound, state. -/
def pincodeRanges : List (Nat × Nat × String) :=
  [(110000, 110099, "Delhi"),
   (400000, 444999, "Maharashtra"),
   (560000, 591999, "Karnataka"),
   (600000, 643999, "Tamil Nadu"),
   (670000, 695999, "Kerala"),
   (700000, 749999, "West Bengal"),
   (500000, 534999, "Andhra Pradesh"),
   (505000, 535999, "Telangana"),
   (380000, 396999, "Gujarat"),
   (180000, 194999, "Jammu & Kashmir"),
   (750000, 769999, "Odisha"),
   (800000, 849999, "Bihar"),
   (820000, 839999, "Jharkhand"),
   (140000, 160999, "Punjab"),
   (160000, 179999, "Haryana"),
   (201000, 285999, "Uttar Pradesh"),
   (301000, 345999, "Rajasthan"),
   (360000, 389999, "Gujarat"),
   (793000, 799999, "Meghalaya"),
   (781000, 788999, "Assam")]

/-- `map_pincode_to_city` (app.py lines 112-160) with the range table as a
parameter, so the priority of the exact table over any range table can be
stated; the program's function instantiates it at `pincodeRanges`. -/
def map_pincode_to_city_with (ranges : List (Nat × Nat × String)) (pincode : String) :
    String × String :=
  if isDigitStr pincode = false then ("Unknown City", "Unknown State")
  else
    let pin := digitsToNat pincode
    match city_map.find? (fun e => e.1 == toString pin) with
    | some e => e.2
    | none =>
        match ranges.find? (fun r => decide (r.1 ≤ pin) && decide (pin ≤ r.2.1)) with
        | some r => ("Pincode " ++ pincode, r.2.2)
        | none => ("Unknown City", "Unknown State")

/-- `map_pincode_to_city` as the source ships it. -/
def map_pincode_to_city (pincode : String) : String × String :=
  map_pincode_to_city_with pincodeRanges pincode

/-- One entry of the `sessions` dict:
`{"lang": ..., "pincode_digits": [...], "step": ...}`. -/
structure Session where
  lang : String
  pincode_digits : List String
  step : Nat
deriving Repr, DecidableEq

/-- The in-memory `sessions` dict, as a function from call SID to an
optional session. -/
abbrev Store := String → Option Session

/-- `sessions[k] = v`. -/
def Store.update (σ : Store) (k : String) (v : Session) : Store :=
  fun k2 => if k2 = k then some v else σ k2

/-- `sessions.pop(k, None)`, as the resulting store. -/
def Store.pop (σ : Store) (k : String) : Store :=
  fun k2 => if k2 = k then none else σ k2

/-- The empty `sessions` dict at process start. -/
def emptyStore : Store := fun _ => none

/-- A call-control directive appended to the TwiML response. -/
inductive Directive where
  | gather (numDigits : Nat) (prompt : String) : Directive
  | play (url : String) : Directive
  | say (text : String) (language : String) : Directive
  | hangup : Directive
deriving Repr, DecidableEq

/-- Outcomes of the external effects one `collect_digit` request can touch:
the weather configuration and HTTP call, the success of the AWS Polly path
(including its internal neural-to-standard retry) and of the gTTS path, the
clock, and the request host and scheme. -/
structure ExtEnv where
  openweatherKey : Option String
  weatherOutcome : WeatherOutcome
  pollyOk : Bool
  gttsOk : Bool
  time : Nat
  host : String
  scheme : String
deriving Repr, DecidableEq

/-- The language selection chain of `handle_language` (app.py lines 181-187):
digit values 1, 2, 3 select en, hi, gu; anything else keeps the default en. -/
def lang_of (Digits : String) : String :=
  if Digits = "1" then "en"
  else if Digits = "2" then "hi"
  else if Digits = "3" then "gu"
  else "en"

/-- `handle_language` (app.py lines 176-196): store a fresh session for the
call SID and gather one digit with the first-pincode-digit prompt. -/
def handle_language (σ : Store) (call_sid : String) (Digits : String) :
    Store × List Directive :=
  (Store.update σ call_sid ⟨lang_of Digits, [], 1⟩,
   [Directive.gather 1 "Please enter the first digit of your six digit pincode."])

/-- The default session `{"lang": "en", "pincode_digits": [], "step": 1}`
that `collect_digit` substitutes for an unknown call SID. -/
def defaultSession : Session :=
  ⟨"en", [], 1⟩

/-- The `ok` flag of the terminal branch of `collect_digit` (app.py lines
231-239): en and hi go through AWS Polly, gu through gTTS, anything else
leaves `ok` false. -/
def synth_ok (lang : String) (ext : ExtEnv) : Bool :=
  if lang = "en" || lang = "hi" then ext.pollyOk
  else if lang = "gu" then ext.gttsOk
  else false

/-- The message composed by the terminal branch of `collect_digit` (app.py
lines 220-226): resolve the pincode, derive the place name fed to the
gateways, and build the localized message. -/
def composed_message (lang : String) (full_pincode : String) (ext : ExtEnv) : String :=
  let cs := map_pincode_to_city full_pincode
  let location_name :=
    if !strContains cs.1 "Pincode" && !strContains cs.1 "Unknown" then cs.1 else cs.2
  build_message lang (cs.1 ++ ", " ++ cs.2)
    (get_weather_for_place ext.openweatherKey ext.weatherOutcome location_name)
    (get_tomato_price_demo location_name)

/-- `collect_digit` (app.py lines 199-252): fetch the session (default on a
miss), append the digit, bump the step, re-store; below step 6 gather the
next digit, otherwise run the terminal pipeline, play the synthesized audio
or say the composed text, hang up, and drop the session. -/
def collect_digit (σ : Store) (call_sid : String) (Digits : String) (ext : ExtEnv) :
    Store × List Directive :=
  let session := (σ call_sid).getD defaultSession
  let step := session.step
  let digits := session.pincode_digits ++ [Digits]
  let session2 : Session := ⟨session.lang, digits, step + 1⟩
  let σ2 := Store.update σ call_sid session2
  if step < 6 then
    (σ2, [Directive.gather 1
      ("Please enter digit number " ++ toString (step + 1) ++ " of your pincode.")])
  else
    let full_pincode := String.join digits
    let message_text := composed_message session.lang full_pincode ext
    let filename := call_sid ++ "_" ++ toString ext.time ++ "_" ++ session.lang ++ ".mp3"
    let ok := synth_ok session.lang ext
    let dirs :=
      if ok then
        [Directive.play (ext.scheme ++ "://" ++ ext.host ++ "/audio/" ++ filename),
         Directive.hangup]
      else
        [Directive.say message_text "en-IN", Directive.hangup]
    (Store.pop σ2 call_sid, dirs)

/-- The stores reachable from the empty `sessions` dict by any interleaving
of `handle_language` and `collect_digit` events. -/
inductive Reachable : Store → Prop where
  | init : Reachable emptyStore
  | lang (σ : Store) (call_sid Digits : String) :
      Reachable σ → Reachable (handle_language σ call_sid Digits).1
  | digit (σ : Store) (call_sid Digits : String) (ext : ExtEnv) :
      Reachable σ → Reachable (collect_digit σ call_sid Digits ext).1

/-- Invariant on the session store: every stored session keeps
`step = len(pincode_digits) + 1`, and holds at most five digits (a session
that receives its sixth digit is removed by the terminal transition before
the handler returns). -/
def StoreInv (σ : Store) : Prop :=
  ∀ sid s, σ sid = some s →
    s.step = s.pincode_digits.length + 1 ∧ s.pincode_digits.length ≤ 5

theorem Store.update_self (σ : Store) (k : String) (v : Session) :
    Store.update σ k v k = some v := by
  simp [Store.update]

theorem Store.update_other (σ : Store) (k k2 : String) (v : Session) (h : k2 ≠ k) :
    Store.update σ k v k2 = σ k2 := by
  simp [Store.update, h]

theorem Store.update_update (σ : Store) (k : String) (v1 v2 : Session) :
    Store.update (Store.update σ k v1) k v2 = Store.update σ k v2 := by
  funext k2
  by_cases h : k2 = k <;> simp [Store.update, h]

theorem Store.pop_self (σ : Store) (k : String) : Store.pop σ k k = none := by
  simp [Store.pop]

theorem Store.pop_other (σ : Store) (k k2 : String) (h : k2 ≠ k) :
    Store.pop σ k k2 = σ k2 := by
  simp [Store.pop, h]

theorem collect_digit_lt (σ : Store) (call_sid Digits : String) (ext : ExtEnv)
    (h : ((σ call_sid).getD defaultSession).step < 6) :
    collect_digit σ call_sid Digits ext =
      (Store.update σ call_sid
        ⟨((σ call_sid).getD defaultSession).lang,
         ((σ call_sid).getD defaultSession).pincode_digits ++ [Digits],
         ((σ call_sid).getD defaultSession).step + 1⟩,
       [Directive.gather 1 ("Please enter digit number " ++
          toString (((σ call_sid).getD defaultSession).step + 1) ++ " of your pincode.")]) := by
  simp only [collect_digit]
  rw [if_pos h]

theorem collect_digit_ge (σ : Store) (call_sid Digits : String) (ext : ExtEnv)
    (h : ¬ ((σ call_sid).getD defaultSession).step < 6) :
    collect_digit σ call_sid Digits ext =
      (Store.pop (Store.update σ call_sid
          ⟨((σ call_sid).getD defaultSession).lang,
           ((σ call_sid).getD defaultSession).pincode_digits ++ [Digits],
           ((σ call_sid).getD defaultSession).step + 1⟩) call_sid,
       if synth_ok ((σ call_sid).getD defaultSession).lang ext then
         [Directive.play (ext.scheme ++ "://" ++ ext.host ++ "/audio/" ++
            (call_sid ++ "_" ++ toString ext.time ++ "_" ++
              ((σ call_sid).getD defaultSession).lang ++ ".mp3")),
          Directive.hangup]
       else
         [Directive.say (composed_message ((σ call_sid).getD defaultSession).lang
            (String.join (((σ call_sid).getD defaultSession).pincode_digits ++ [Digits])) ext)
            "en-IN",
          Directive.hangup]) := by
  simp only [collect_digit]
  rw [if_neg h]

theorem collect_digit_fst_lt (σ : Store) (call_sid Digits : String) (ext : ExtEnv)
    (h : ((σ call_sid).getD defaultSession).step < 6) :
    (collect_digit σ call_sid Digits ext).1 =
      Store.update σ call_sid
        ⟨((σ call_sid).getD defaultSession).lang,
         ((σ call_sid).getD defaultSession).pincode_digits ++ [Digits],
         ((σ call_sid).getD defaultSession).step + 1⟩ :=
  congrArg Prod.fst (collect_digit_lt σ call_sid Digits ext h)

theorem collect_digit_snd_lt (σ : Store) (call_sid Digits : String) (ext : ExtEnv)
    (h : ((σ call_sid).getD defaultSession).step < 6) :
    (collect_digit σ call_sid Digits ext).2 =
      [Directive.gather 1 ("Please enter digit number " ++
        toString (((σ call_sid).getD defaultSession).step + 1) ++ " of your pincode.")] :=
  congrArg Prod.snd (collect_digit_lt σ call_sid Digits ext h)

theorem collect_digit_fst_ge (σ : Store) (call_sid Digits : String) (ext : ExtEnv)
    (h : ¬ ((σ call_sid).getD defaultSession).step < 6) :
    (collect_digit σ call_sid Digits ext).1 =
      Store.pop (Store.update σ call_sid
        ⟨((σ call_sid).getD defaultSession).lang,
         ((σ call_sid).getD defaultSession).pincode_digits ++ [Digits],
         ((σ call_sid).getD defaultSession).step + 1⟩) call_sid :=
  congrArg Prod.fst (collect_digit_ge σ call_sid Digits ext h)

theorem collect_digit_snd_ge (σ : Store) (call_sid Digits : String) (ext : ExtEnv)
    (h : ¬ ((σ call_sid).getD defaultSession).step < 6) :
    (collect_digit σ call_sid Digits ext).2 =
      (if synth_ok ((σ call_sid).getD defaultSession).lang ext then
        [Directive.play (ext.scheme ++ "://" ++ ext.host ++ "/audio/" ++
           (call_sid ++ "_" ++ toString ext.time ++ "_" ++
             ((σ call_sid).getD defaultSession).lang ++ ".mp3")),
         Directive.hangup]
      else
        [Directive.say (composed_message ((σ call_sid).getD defaultSession).lang
           (String.join (((σ call_sid).getD defaultSession).pincode_digits ++ [Digits])) ext)
           "en-IN",
         Directive.hangup]) :=
  congrArg Prod.snd (collect_digit_ge σ call_sid Digits ext h)

theorem reachable_inv {σ : Store} (h : Reachable σ) : StoreInv σ := by
  induction h with
  | init =>
      intro sid s hs
      exact absurd hs (by simp [emptyStore])
  | lang σ0 call_sid Digits _ ih =>
      intro sid s hs
      by_cases hk : sid = call_sid
      · subst hk
        rw [show (handle_language σ0 sid Digits).1 =
              Store.update σ0 sid ⟨lang_of Digits, [], 1⟩ from rfl,
            Store.update_self] at hs
        injection hs with hs
        subst hs
        simp
      · rw [show (handle_language σ0 call_sid Digits).1 =
              Store.update σ0 call_sid ⟨lang_of Digits, [], 1⟩ from rfl,
            Store.update_other _ _ _ _ hk] at hs
        exact ih sid s hs
  | digit σ0 call_sid Digits ext _ ih =>
      intro sid s hs
      have hInv0 : ((σ0 call_sid).getD defaultSession).step =
            ((σ0 call_sid).getD defaultSession).pincode_digits.length + 1 ∧
          ((σ0 call_sid).getD defaultSession).pincode_digits.length ≤ 5 := by
        cases hσ : σ0 call_sid with
        | none => simp [hσ, defaultSession]
        | some t =>
            have ht := ih call_sid t hσ
            simpa [hσ] using ht
      by_cases hlt : ((σ0 call_sid).getD defaultSession).step < 6
      · rw [collect_digit_fst_lt σ0 call_sid Digits ext hlt] at hs
        by_cases hk : sid = call_sid
        · subst hk
          rw [Store.update_self] at hs
          injection hs with hs
          subst hs
          refine ⟨by simp [hInv0.1], ?_⟩
          have h6 : ((σ0 sid).getD defaultSession).pincode_digits.length + 1 < 6 :=
            hInv0.1 ▸ hlt
          simp only [List.length_append, List.length_singleton]
          omega
        · rw [Store.update_other _ _ _ _ hk] at hs
          exact ih sid s hs
      · rw [collect_digit_fst_ge σ0 call_sid Digits ext hlt] at hs
        by_cases hk : sid = call_sid
        · subst hk
          rw [Store.pop_self] at hs
          cases hs
        · rw [Store.pop_other _ _ _ hk, Store.update_other _ _ _ _ hk] at hs
          exact ih sid s hs

theorem subListAux_nil_pat (l : List Char) : subListAux [] l = true := by
  cases l <;> simp [subListAux, List.isPrefixOf]

theorem list_isPrefixOf_append {pat xs : List Char} (ys : List Char)
    (h : List.isPrefixOf pat xs = true) : List.isPrefixOf pat (xs ++ ys) = true := by
  induction pat generalizing xs with
  | nil => simp [List.isPrefixOf]
  | cons p ps ih =>
      cases xs with
      | nil => simp [List.isPrefixOf] at h
      | cons x xt =>
          simp only [List.isPrefixOf, Bool.and_eq_true, beq_iff_eq] at h
          simp only [List.cons_append, List.isPrefixOf, Bool.and_eq_true, beq_iff_eq]
          exact ⟨h.1, ih h.2⟩

theorem subListAux_append_left (pat xs ys : List Char) (h : subListAux pat xs = true) :
    subListAux pat (xs ++ ys) = true := by
  induction xs with
  | nil =>
      have hp : pat = [] := by simpa [subListAux] using h
      subst hp
      exact subListAux_nil_pat ys
  | cons c cs ih =>
      simp only [subListAux, Bool.or_eq_true] at h
      simp only [List.cons_append, subListAux, Bool.or_eq_true]
      cases h with
      | inl hp => exact Or.inl (list_isPrefixOf_append ys hp)
      | inr ht => exact Or.inr (ih ht)

theorem subListAux_append_right (pat xs ys : List Char) (h : subListAux pat ys = true) :
    subListAux pat (xs ++ ys) = true := by
  induction xs with
  | nil => simpa using h
  | cons c cs ih =>
      simp only [List.cons_append, subListAux, Bool.or_eq_true]
      exact Or.inr ih

theorem strContains_append_left (a b pat : String) (h : strContains a pat = true) :
    strContains (a ++ b) pat = true :=
  subListAux_append_left pat.data a.data b.data h

theorem strContains_append_right (a b pat : String) (h : strContains b pat = true) :
    strContains (a ++ b) pat = true :=
  subListAux_append_right pat.data a.data b.data h

theorem str_ne_empty_of_data_right (a b : String) (h : b.data ≠ []) : a ++ b ≠ "" := by
  intro hc
  apply h
  have h2 : a.data ++ b.data = ([] : List Char) := congrArg String.data hc
  exact (List.append_eq_nil.mp h2).2

/-- Claim C1: while pincode entry is incomplete, every stored session keeps
`step = len(collectedDigits) + 1`: the invariant holds in every reachable
store (sessions are stored exactly while incomplete, the terminal transition
removes them), and each non-terminal digit-collected event appends the digit
and increments `step` by exactly one. -/
theorem step_counter_invariant :
    (∀ σ : Store, Reachable σ → ∀ sid s, σ sid = some s →
        s.step = s.pincode_digits.length + 1)
    ∧ (∀ (σ : Store) (call_sid Digits : String) (ext : ExtEnv) (s : Session),
        σ call_sid = some s → s.step < 6 →
        (collect_digit σ call_sid Digits ext).1 call_sid =
          some ⟨s.lang, s.pincode_digits ++ [Digits], s.step + 1⟩) := by
  constructor
  · intro σ h sid s hs
    exact (reachable_inv h sid s hs).1
  · intro σ call_sid Digits ext s hσ hlt
    have hgd : (σ call_sid).getD defaultSession = s := by simp [hσ]
    rw [collect_digit_fst_lt σ call_sid Digits ext (by rw [hgd]; exact hlt), hgd]
    exact Store.update_self σ call_sid _

/-- Witness for C1 at a concrete run: after selecting Hindi and collecting
one digit, the stored session is exactly one step ahead of its digit list. -/
theorem step_counter_invariant_witness :
    (⟨"hi", [], 1⟩ : Session).step = ([] : List String).length + 1 ∧
    (collect_digit (handle_language emptyStore "CA100" "2").1 "CA100" "4"
        ⟨none, WeatherOutcome.exn, false, false, 0, "h", "http"⟩).1 "CA100" =
      some ⟨"hi", ["4"], 2⟩ := by
  constructor
  · exact step_counter_invariant.1 (handle_language emptyStore "CA100" "2").1
      (Reachable.lang emptyStore "CA100" "2" Reachable.init) "CA100" ⟨"hi", [], 1⟩ (by decide)
  · exact step_counter_invariant.2 (handle_language emptyStore "CA100" "2").1 "CA100" "4"
      ⟨none, WeatherOutcome.exn, false, false, 0, "h", "http"⟩ ⟨"hi", [], 1⟩
      (by decide) (by decide)

/-- Claim C2: no reachable store holds a session with more than 6 collected
digits, and a digit-collected transition applied to any reachable store
never yields a stored session with more than 6 digits. -/
theorem digits_never_exceed_six :
    (∀ σ : Store, Reachable σ → ∀ sid s, σ sid = some s →
        s.pincode_digits.length ≤ 6)
    ∧ (∀ (σ : Store) (call_sid Digits : String) (ext : ExtEnv), Reachable σ →
        ∀ sid s, (collect_digit σ call_sid Digits ext).1 sid = some s →
          s.pincode_digits.length ≤ 6) := by
  have h1 : ∀ σ : Store, Reachable σ → ∀ sid s, σ sid = some s →
      s.pincode_digits.length ≤ 6 := by
    intro σ h sid s hs
    have := (reachable_inv h sid s hs).2
    omega
  exact ⟨h1, fun σ call_sid Digits ext hσ sid s hs =>
    h1 _ (Reachable.digit σ call_sid Digits ext hσ) sid s hs⟩

/-- Witness for C2 at a concrete run: the session stored after one
digit-collected event on a reachable store holds at most six digits. -/
theorem digits_never_exceed_six_witness :
    (⟨"en", ["9"], 2⟩ : Session).pincode_digits.length ≤ 6 := by
  exact digits_never_exceed_six.2 (handle_language emptyStore "CA200" "1").1 "CA200" "9"
    ⟨none, WeatherOutcome.exn, false, false, 0, "h", "http"⟩
    (Reachable.lang emptyStore "CA200" "1" Reachable.init) "CA200" ⟨"en", ["9"], 2⟩
    (by decide)

/-- Claim C3: a digit-collected event for a call SID with no stored session
does not fail; it behaves exactly as if a freshly initialized default
session (language English, zero digits, step 1) were stored for that SID,
storing `{"en", [digit], 2}` and prompting for digit number 2. -/
theorem unknown_call_uses_default_session (σ : Store) (call_sid Digits : String)
    (ext : ExtEnv) (h : σ call_sid = none) :
    collect_digit σ call_sid Digits ext =
      collect_digit (Store.update σ call_sid defaultSession) call_sid Digits ext
    ∧ (collect_digit σ call_sid Digits ext).1 call_sid = some ⟨"en", [Digits], 2⟩
    ∧ (collect_digit σ call_sid Digits ext).2 =
        [Directive.gather 1 ("Please enter digit number " ++ toString 2 ++
          " of your pincode.")] := by
  have hgdL : (σ call_sid).getD defaultSession = defaultSession := by simp [h]
  have hgdR : ((Store.update σ call_sid defaultSession) call_sid).getD defaultSession =
      defaultSession := by
    rw [Store.update_self]
    rfl
  have hstep : defaultSession.step < 6 := by decide
  have hL := collect_digit_lt σ call_sid Digits ext (by rw [hgdL]; exact hstep)
  have hR := collect_digit_lt (Store.update σ call_sid defaultSession) call_sid Digits ext
    (by rw [hgdR]; exact hstep)
  rw [hgdL] at hL
  rw [hgdR] at hR
  have hf := collect_digit_fst_lt σ call_sid Digits ext (by rw [hgdL]; exact hstep)
  rw [hgdL] at hf
  have hsnd := collect_digit_snd_lt σ call_sid Digits ext (by rw [hgdL]; exact hstep)
  rw [hgdL] at hsnd
  refine ⟨?_, ?_, ?_⟩
  · rw [hL, hR, Store.update_update]
  · rw [hf, Store.update_self]
    rfl
  · rw [hsnd]
    rfl

/-- Witness for C3 at a concrete input: the empty store has no session for
the SID, and the event is handled as for a fresh default session. -/
theorem unknown_call_uses_default_session_witness :
    collect_digit emptyStore "CA300" "7"
        ⟨none, WeatherOutcome.exn, false, false, 0, "h", "http"⟩ =
      collect_digit (Store.update emptyStore "CA300" defaultSession) "CA300" "7"
        ⟨none, WeatherOutcome.exn, false, false, 0, "h", "http"⟩
    ∧ (collect_digit emptyStore "CA300" "7"
        ⟨none, WeatherOutcome.exn, false, false, 0, "h", "http"⟩).1 "CA300" =
        some ⟨"en", ["7"], 2⟩
    ∧ (collect_digit emptyStore "CA300" "7"
        ⟨none, WeatherOutcome.exn, false, false, 0, "h", "http"⟩).2 =
        [Directive.gather 1 ("Please enter digit number " ++ toString 2 ++
          " of your pincode.")] :=
  unknown_call_uses_default_session emptyStore "CA300" "7"
    ⟨none, WeatherOutcome.exn, false, false, 0, "h", "http"⟩ rfl

/-- Claim C4: a language-selected event maps digit 1 to English, 2 to Hindi,
3 to Gujarati, anything else defaults to English without error; it
overwrites the session for the SID with the chosen language, no digits and
step 1, and emits a single-digit gather prompting for the first pincode
digit. -/
theorem language_selection_spec (σ : Store) (call_sid Digits : String) :
    handle_language σ call_sid Digits =
      (Store.update σ call_sid ⟨lang_of Digits, [], 1⟩,
       [Directive.gather 1 "Please enter the first digit of your six digit pincode."])
    ∧ lang_of "1" = "en" ∧ lang_of "2" = "hi" ∧ lang_of "3" = "gu"
    ∧ (Digits ≠ "1" → Digits ≠ "2" → Digits ≠ "3" → lang_of Digits = "en") := by
  refine ⟨rfl, rfl, rfl, rfl, ?_⟩
  intro h1 h2 h3
  simp [lang_of, h1, h2, h3]

/-- Witness for C4 at a concrete input: an unmapped digit defaults to
English and the session is created with empty digits and step 1. -/
theorem language_selection_spec_witness :
    handle_language emptyStore "CA400" "9" =
      (Store.update emptyStore "CA400" ⟨"en", [], 1⟩,
       [Directive.gather 1 "Please enter the first digit of your six digit pincode."])
    ∧ lang_of "9" = "en" := by
  have h := language_selection_spec emptyStore "CA400" "9"
  exact ⟨h.1, h.2.2.2.2 (by decide) (by decide) (by decide)⟩

/-- Claim C5: every pincode in the exact-match table resolves to its mapped
city and state, whatever the range table contains: the exact match is
checked before the ranges. -/
theorem exact_pincode_priority (ranges : List (Nat × Nat × String)) (p c r : String)
    (h : (p, c, r) ∈ city_map) :
    map_pincode_to_city_with ranges p = (c, r) ∧ map_pincode_to_city p = (c, r) := by
  have hgen : ∀ rs : List (Nat × Nat × String), map_pincode_to_city_with rs p = (c, r) := by
    intro rs
    fin_cases h <;> rfl
  exact ⟨hgen ranges, hgen pincodeRanges⟩

/-- Witness for C5 at a concrete input: 400001 resolves to Mumbai even with
an empty range table (and with the shipped one). -/
theorem exact_pincode_priority_witness :
    map_pincode_to_city_with [] "400001" = ("Mumbai", "Maharashtra")
    ∧ map_pincode_to_city "400001" = ("Mumbai", "Maharashtra") :=
  exact_pincode_priority [] "400001" "Mumbai" "Maharashtra" (by decide)

/-- Claim C6: a numeric pincode that misses the exact table and lies in at
least one range resolves to the placeholder city `Pincode <code>` and the
region of the first-listed containing range (so on overlaps the
earlier-listed range wins). -/
theorem range_fallback_first_wins (p : String) (rg : Nat × Nat × String)
    (hd : isDigitStr p = true)
    (hexact : city_map.find? (fun e => e.1 == toString (digitsToNat p)) = none)
    (hr : pincodeRanges.find? (fun r =>
        decide (r.1 ≤ digitsToNat p) && decide (digitsToNat p ≤ r.2.1)) = some rg) :
    map_pincode_to_city p = ("Pincode " ++ p, rg.2.2)
    ∧ rg ∈ pincodeRanges ∧ rg.1 ≤ digitsToNat p ∧ digitsToNat p ≤ rg.2.1 := by
  have hcontains := List.find?_some hr
  simp only [Bool.and_eq_true, decide_eq_true_eq] at hcontains
  refine ⟨?_, List.mem_of_find?_eq_some hr, hcontains.1, hcontains.2⟩
  unfold map_pincode_to_city map_pincode_to_city_with
  simp [hd, hexact, hr]

/-- Witness for C6 at a concrete overlap: 505000 lies in both the
Andhra Pradesh range (listed 7th) and the Telangana range (listed 8th);
the earlier-listed Andhra Pradesh range wins. -/
theorem range_fallback_first_wins_witness :
    map_pincode_to_city "505000" = ("Pincode " ++ "505000", "Andhra Pradesh")
    ∧ (505000, 535999, "Telangana") ∈ pincodeRanges
    ∧ 505000 ≤ 505000 ∧ (505000 : Nat) ≤ 535999 := by
  have h := range_fallback_first_wins "505000" (500000, 534999, "Andhra Pradesh")
    (by decide) (by decide) (by decide)
  exact ⟨h.1, by decide, by decide, by decide⟩

/-- Claim C7: empty input, non-numeric input, and numeric input matching
neither the exact table nor any range all resolve to the sentinel pair
("Unknown City", "Unknown State") without error. -/
theorem resolver_unknown_sentinel :
    (∀ p : String, isDigitStr p = false →
        map_pincode_to_city p = ("Unknown City", "Unknown State"))
    ∧ (∀ p : String, isDigitStr p = true →
        city_map.find? (fun e => e.1 == toString (digitsToNat p)) = none →
        pincodeRanges.find? (fun r =>
          decide (r.1 ≤ digitsToNat p) && decide (digitsToNat p ≤ r.2.1)) = none →
        map_pincode_to_city p = ("Unknown City", "Unknown State")) := by
  constructor
  · intro p h
    unfold map_pincode_to_city map_pincode_to_city_with
    simp [h]
  · intro p h h1 h2
    unfold map_pincode_to_city map_pincode_to_city_with
    simp [h, h1, h2]

/-- Witness for C7 at concrete inputs: the empty string, a non-numeric
string, and a numeric pincode outside every table and range. -/
theorem resolver_unknown_sentinel_witness :
    map_pincode_to_city "" = ("Unknown City", "Unknown State")
    ∧ map_pincode_to_city "40a" = ("Unknown City", "Unknown State")
    ∧ map_pincode_to_city "999999" = ("Unknown City", "Unknown State") :=
  ⟨resolver_unknown_sentinel.1 "" (by decide),
   resolver_unknown_sentinel.1 "40a" (by decide),
   resolver_unknown_sentinel.2 "999999" (by decide) (by decide) (by decide)⟩

/-- Claim C8: the weather gateway returns the fixed default reading under
missing configuration, an exception, or a non-success response; the price
lookup returns its global default 32 when no table key matches; and the
message composed from both defaults is non-empty and contains both
"clear sky" and the price 32, in every language. -/
theorem gateway_defaults_compose :
    (∀ (key : Option String) (outcome : WeatherOutcome) (place : String),
        (key.getD "").isEmpty = true →
        get_weather_for_place key outcome place = defaultWeather)
    ∧ (∀ (key : Option String) (place : String),
        get_weather_for_place key WeatherOutcome.exn place = defaultWeather)
    ∧ (∀ (key : Option String) (place : String) (cod : Option Int) (d t : String),
        cod ≠ some 200 →
        get_weather_for_place key (WeatherOutcome.response cod d t) place = defaultWeather)
    ∧ (∀ city : String,
        priceMapping.find? (fun kv => strContains (lowerStr city) (lowerStr kv.1)) = none →
        get_tomato_price_demo city = 32)
    ∧ (∀ lang city : String,
        build_message lang city defaultWeather 32 ≠ ""
        ∧ strContains (build_message lang city defaultWeather 32) "clear sky" = true
        ∧ strContains (build_message lang city defaultWeather 32) "32" = true) := by
  refine ⟨?_, ?_, ?_, ?_, ?_⟩
  · intro key outcome place h
    unfold get_weather_for_place
    rw [if_pos h]
  · intro key place
    unfold get_weather_for_place
    split
    · rfl
    · rfl
  · intro key place cod d t h
    unfold get_weather_for_place
    split
    · rfl
    · simp [h]
  · intro city h
    unfold get_tomato_price_demo
    rw [h]
  · intro lang city
    by_cases h1 : lang = "en"
    · subst h1
      simp only [build_message, defaultWeather, if_pos rfl]
      refine ⟨str_ne_empty_of_data_right _ _ (by decide), ?_, ?_⟩
      · apply strContains_append_left
        apply strContains_append_left
        apply strContains_append_left
        apply strContains_append_left
        apply strContains_append_left
        apply strContains_append_right
        decide
      · apply strContains_append_left
        apply strContains_append_right
        decide
    · by_cases h2 : lang = "hi"
      · subst h2
        simp only [build_message, defaultWeather, if_true]
        refine ⟨str_ne_empty_of_data_right _ _ (by decide), ?_, ?_⟩
        · apply strContains_append_left
          apply strContains_append_left
          apply strContains_append_left
          apply strContains_append_left
          apply strContains_append_left
          apply strContains_append_right
          decide
        · apply strContains_append_left
          apply strContains_append_right
          decide
      · by_cases h3 : lang = "gu"
        · subst h3
          simp only [build_message, defaultWeather, if_true]
          refine ⟨str_ne_empty_of_data_right _ _ (by decide), ?_, ?_⟩
          · apply strContains_append_left
            apply strContains_append_left
            apply strContains_append_left
            apply strContains_append_left
            apply strContains_append_left
            apply strContains_append_right
            decide
          · apply strContains_append_left
            apply strContains_append_right
            decide
        · simp only [build_message, defaultWeather]
          rw [if_neg h1, if_neg h2, if_neg h3]
          refine ⟨str_ne_empty_of_data_right _ _ (by decide), ?_, ?_⟩
          · apply strContains_append_left
            apply strContains_append_left
            apply strContains_append_left
            apply strContains_append_left
            apply strContains_append_left
            apply strContains_append_right
            decide
          · apply strContains_append_left
            apply strContains_append_right
            decide

/-- Witness for C8 at concrete inputs: each failure mode of the weather
gateway, a city outside the price table, and the message composed from the
default reading and default price in Hindi. -/
theorem gateway_defaults_compose_witness :
    get_weather_for_place none (WeatherOutcome.response (some 200) "haze" "30") "Mumbai" =
      defaultWeather
    ∧ get_weather_for_place (some "k") WeatherOutcome.exn "Mumbai" = defaultWeather
    ∧ get_weather_for_place (some "k") (WeatherOutcome.response (some 404) "x" "y") "Mumbai" =
        defaultWeather
    ∧ get_tomato_price_demo "Gotham" = 32
    ∧ (build_message "hi" "Gotham, Nowhere" defaultWeather 32 ≠ ""
       ∧ strContains (build_message "hi" "Gotham, Nowhere" defaultWeather 32) "clear sky" = true
       ∧ strContains (build_message "hi" "Gotham, Nowhere" defaultWeather 32) "32" = true) :=
  ⟨gateway_defaults_compose.1 none (WeatherOutcome.response (some 200) "haze" "30") "Mumbai"
     (by decide),
   gateway_defaults_compose.2.1 (some "k") "Mumbai",
   gateway_defaults_compose.2.2.1 (some "k") "Mumbai" (some 404) "x" "y" (by decide),
   gateway_defaults_compose.2.2.2.1 "Gotham" (by decide),
   gateway_defaults_compose.2.2.2.2 "hi" "Gotham, Nowhere"⟩

/-- Claim C9: on a terminal transition whose synthesis fails, the response
is exactly a say directive carrying the message composed in the session's
selected language followed by a hangup — never a play directive — and on
every terminal transition, whatever the synthesis outcome, the response
ends with a hangup directive. -/
theorem terminal_fallback_and_hangup (σ : Store) (call_sid Digits : String)
    (ext : ExtEnv) (s : Session)
    (hs : (σ call_sid).getD defaultSession = s) (hstep : 6 ≤ s.step) :
    (synth_ok s.lang ext = false →
      (collect_digit σ call_sid Digits ext).2 =
        [Directive.say (composed_message s.lang
            (String.join (s.pincode_digits ++ [Digits])) ext) "en-IN",
         Directive.hangup])
    ∧ (collect_digit σ call_sid Digits ext).2.getLast? = some Directive.hangup := by
  have hnlt : ¬ ((σ call_sid).getD defaultSession).step < 6 := by
    rw [hs]
    omega
  have h2 := collect_digit_snd_ge σ call_sid Digits ext hnlt
  rw [hs] at h2
  constructor
  · intro hok
    rw [h2, hok]
    rfl
  · rw [h2]
    cases hok : synth_ok s.lang ext <;> simp

/-- Witness for C9 at a concrete terminal event: a Gujarati session at step
6 whose gTTS synthesis fails gets the say fallback with the composed text
and then a hangup. -/
theorem terminal_fallback_and_hangup_witness :
    ((collect_digit (Store.update emptyStore "CB900" ⟨"gu", ["3", "8", "0", "0", "0"], 6⟩)
        "CB900" "1" ⟨some "k", WeatherOutcome.response (some 200) "haze" "29",
          true, false, 5, "ex.io", "https"⟩).2 =
      [Directive.say (composed_message "gu"
          (String.join (["3", "8", "0", "0", "0"] ++ ["1"]))
          ⟨some "k", WeatherOutcome.response (some 200) "haze" "29",
            true, false, 5, "ex.io", "https"⟩) "en-IN",
       Directive.hangup])
    ∧ (collect_digit (Store.update emptyStore "CB900" ⟨"gu", ["3", "8", "0", "0", "0"], 6⟩)
        "CB900" "1" ⟨some "k", WeatherOutcome.response (some 200) "haze" "29",
          true, false, 5, "ex.io", "https"⟩).2.getLast? = some Directive.hangup := by
  have h := terminal_fallback_and_hangup
    (Store.update emptyStore "CB900" ⟨"gu", ["3", "8", "0", "0", "0"], 6⟩)
    "CB900" "1"
    ⟨some "k", WeatherOutcome.response (some 200) "haze" "29", true, false, 5, "ex.io", "https"⟩
    ⟨"gu", ["3", "8", "0", "0", "0"], 6⟩ (by decide) (by decide)
  exact ⟨h.1 (by decide), h.2⟩

/-- Claim C10: the price lookup scans its table in order and returns the
value of the first key whose lowercasing is contained in the lowercased
place name; when no key matches it returns 32. -/
theorem price_table_order (city : String) :
    (∀ kv : String × Nat,
        priceMapping.find? (fun e => strContains (lowerStr city) (lowerStr e.1)) = some kv →
        get_tomato_price_demo city = kv.2)
    ∧ ((∀ kv ∈ priceMapping, strContains (lowerStr city) (lowerStr kv.1) = false) →
        get_tomato_price_demo city = 32) := by
  constructor
  · intro kv h
    unfold get_tomato_price_demo
    rw [h]
  · intro h
    have hn : priceMapping.find?
        (fun e => strContains (lowerStr city) (lowerStr e.1)) = none := by
      rw [List.find?_eq_none]
      intro x hx
      rw [h x hx]
      simp
    unfold get_tomato_price_demo
    rw [hn]

/-- Witness for C10 at concrete inputs: a place name containing "mumbai" in
mixed case gets Mumbai's price 45, a place name containing no key gets 32. -/
theorem price_table_order_witness :
    get_tomato_price_demo "Navi MUMBAI" = 45 ∧ get_tomato_price_demo "Gotham City" = 32 :=
  ⟨(price_table_order "Navi MUMBAI").1 ("Mumbai", 45) (by decide),
   (price_table_order "Gotham City").2 (by decide)⟩
